import Mathlib

/-!
Shallow embedding of the `lmsg` command-line client (`src/lmsg/cli.py`) and
of the `lmsp` sanitizer interface (`src/lmsp/__init__.py`), for checking the
specification's claims.

External effects (subprocess invocations, HTTP requests) are embedded by
passing the environment's behaviour explicitly: each function takes a record
describing what the external world returns at each call site, and returns its
result together with the list of subprocess invocations it performed.
-/

namespace Lmsp

/-- Python `str.isspace`-style whitespace characters, as used by `str.strip()`
and `str.split()` (space, tab, newline, carriage return, vertical tab, form feed). -/
def pyIsWs (c : Char) : Bool :=
  c = ' ' || c = '\t' || c = '\n' || c = '\r' || c.val = 11 || c.val = 12

/-- Python `s.strip()`: drop leading and trailing whitespace. -/
def pyStrip (s : String) : String :=
  ⟨((s.data.dropWhile pyIsWs).reverse.dropWhile pyIsWs).reverse⟩

/-- Python `line.split()[0]`: the first whitespace-delimited token of a line
(meaningful on lines whose `strip()` is non-empty). -/
def firstToken (s : String) : String :=
  ⟨(s.data.dropWhile pyIsWs).takeWhile (fun c => !(pyIsWs c))⟩

/-- Python truthiness of an optional string (`None` and `""` are falsy). -/
def optTruthy : Option String → Bool
  | none => false
  | some s => s != ""

/-- Whether the first list is a prefix of the second. -/
def isPrefixChars : List Char → List Char → Bool
  | [], _ => true
  | _ :: _, [] => false
  | p :: ps, c :: cs => p = c && isPrefixChars ps cs

/-- Whether the pattern occurs as a contiguous sublist. -/
def hasSubstrChars : List Char → List Char → Bool
  | [], pat => pat.isEmpty
  | c :: cs, pat => isPrefixChars pat (c :: cs) || hasSubstrChars cs pat

/-- Python `pat in s` substring containment. -/
def strContains (s pat : String) : Bool :=
  hasSubstrChars s.data pat.data

/-- Whether `p` is a prefix of `s` (the recognizable-prefix check of the
error-string contract). -/
def strHasPrefix (p s : String) : Bool :=
  isPrefixChars p.data s.data

/-- Python `s.split('\n')`: split on every newline, keeping empty pieces
(`"".split('\n') == ['']`). -/
def splitLinesChars : List Char → List (List Char)
  | [] => [[]]
  | c :: cs =>
    match splitLinesChars cs with
    | r :: rs => if c = '\n' then [] :: r :: rs else (c :: r) :: rs
    | [] => [[]]

/-- Python `s.split('\n')` on strings. -/
def pySplitNl (s : String) : List String :=
  (splitLinesChars s.data).map (fun l => ⟨l⟩)

/-- Python `s.lower()` (the code only matches ASCII markers after lowering). -/
def pyLower (s : String) : String :=
  ⟨s.data.map Char.toLower⟩

/-- A record in the list returned by `get_loaded_models` — a JSON object whose
`identifier` and `name` string fields may each be absent (the code reads them
with `dict.get`). -/
structure ModelRecord where
  identifier : Option String := none
  name : Option String := none
deriving DecidableEq, Repr

/-- One `subprocess.run` invocation as the code issues it: the argv array,
whether a shell interprets it (`shell=` keyword, defaulting to false), and the
`timeout=` keyword when one is passed. -/
structure SubprocCall where
  argv : List String
  shell : Bool
  timeout : Option Nat
deriving DecidableEq, Repr

/-- What the external world does at one `subprocess.run` call site: the process
completes with an exit code, stdout and stderr, or the call raises. -/
inductive RunOutcome where
  | completed (returncode : Int) (stdout : String) (stderr : String)
  | raised (msg : String)
deriving DecidableEq, Repr

/-- `subprocess.run(['lms', 'ps', '--json'], capture_output=True, text=True)`
(cli.py line 28): no `shell=`, no `timeout=`. -/
def psJsonCall : SubprocCall := ⟨["lms", "ps", "--json"], false, none⟩

/-- `subprocess.run(['lms', 'ps'], capture_output=True, text=True)`
(cli.py line 38). -/
def psPlainCall : SubprocCall := ⟨["lms", "ps"], false, none⟩

/-- `subprocess.run(['lms', 'load', model_name], capture_output=True, text=True)`
(cli.py line 109). -/
def lmsLoadCall (name : String) : SubprocCall := ⟨["lms", "load", name], false, none⟩

/-- `subprocess.run(['lms', 'ls'], capture_output=True, text=True)`
(cli.py line 83). -/
def lmsLsCall : SubprocCall := ⟨["lms", "ls"], false, none⟩

/-- `subprocess.run(['lms', 'server', 'status', '--json'], capture_output=True,
text=True)` (cli.py line 58). -/
def serverStatusCall : SubprocCall := ⟨["lms", "server", "status", "--json"], false, none⟩

/-- Environment of one `get_loaded_models()` call: the outcome of the
`lms ps --json` invocation, the result of `json.loads` on its stdout
(`none` abstracts a raising `json.loads`), and the outcome of the fallback
`lms ps` invocation. -/
structure GetLoadedEnv where
  psJson : RunOutcome
  psJsonParsed : Option (List ModelRecord)
  psPlain : RunOutcome
deriving Repr

/-- The plain-text parsing of `lms ps` stdout (cli.py lines 40–47): strip the
whole output, split on newlines, require more than one line (the first is
taken as a header), and return a single record built from the first
whitespace-delimited token of the first non-blank remaining line. -/
def parsePlainPs (stdout : String) : List ModelRecord :=
  let lines := pySplitNl (pyStrip stdout)
  if lines.length > 1 then
    match (lines.drop 1).find? (fun l => pyStrip l != "") with
    | some l => [{ identifier := some (firstToken l) }]
    | none => []
  else []

/-- `get_loaded_models` (cli.py lines 24–52), returning the parsed record list
together with the subprocess invocations performed. A raising `json.loads`
(`psJsonParsed = none`) is caught by the enclosing `except` and yields `[]`
without reaching the plain-text fallback; the fallback runs only when the
structured query exits non-zero or prints nothing. -/
def get_loaded_models (env : GetLoadedEnv) : List ModelRecord × List SubprocCall :=
  match env.psJson with
  | .raised _ => ([], [psJsonCall])
  | .completed rc stdout _ =>
    if rc = 0 && stdout != "" then
      match env.psJsonParsed with
      | some models => (models, [psJsonCall])
      | none => ([], [psJsonCall])
    else
      match env.psPlain with
      | .raised _ => ([], [psJsonCall, psPlainCall])
      | .completed rc2 stdout2 _ =>
        if rc2 = 0 then (parsePlainPs stdout2, [psJsonCall, psPlainCall])
        else ([], [psJsonCall, psPlainCall])

/-- `list_available_models` (cli.py lines 79–93): on exit 0 with non-empty
stdout, strip the output, split on newlines, strip each line and drop blanks;
otherwise return the empty list. -/
def list_available_models (run : RunOutcome) : List String × List SubprocCall :=
  match run with
  | .raised _ => ([], [lmsLsCall])
  | .completed rc stdout _ =>
    if rc = 0 && stdout != "" then
      (((pySplitNl (pyStrip stdout)).map pyStrip).filter (fun m => m != ""), [lmsLsCall])
    else ([], [lmsLsCall])

/-- Environment of one `ensure_model_loaded` call: the listing environment,
the outcome of `lms load`, and the outcome of the `lms ls` issued when the
load error text marks the model unknown. -/
structure EnsureEnv where
  gle : GetLoadedEnv
  lmsLoad : RunOutcome
  lmsLs : RunOutcome
deriving Repr

/-- `ensure_model_loaded` (cli.py lines 95–128): return true without further
invocations when a listed record's `identifier` or `name` equals the requested
name; otherwise run `lms load`, and on a failing load whose lower-cased stderr
contains "not found" or "does not exist", additionally run `lms ls`. -/
def ensure_model_loaded (name : String) (env : EnsureEnv) : Bool × List SubprocCall :=
  let loaded := (get_loaded_models env.gle).1
  let tr0 := (get_loaded_models env.gle).2
  if loaded.any (fun r => r.identifier = some name || r.name = some name) then
    (true, tr0)
  else
    match env.lmsLoad with
    | .raised _ => (false, tr0 ++ [lmsLoadCall name])
    | .completed rc _ stderr =>
      if rc = 0 then (true, tr0 ++ [lmsLoadCall name])
      else
        if strContains (pyLower stderr) "not found" || strContains (pyLower stderr) "does not exist" then
          (false, tr0 ++ [lmsLoadCall name] ++ (list_available_models env.lmsLs).2)
        else (false, tr0 ++ [lmsLoadCall name])

/-- One message of the request payload. -/
structure ChatMessage where
  role : String
  content : String
deriving DecidableEq, Repr

/-- The request payload built by `send_prompt` (cli.py lines 143–151). -/
structure RequestPayload where
  model : String
  messages : List ChatMessage
  temperature : ℚ
  max_tokens : Int
  stream : Bool
deriving DecidableEq, Repr

/-- The single `requests.post` call issued by `send_prompt` (cli.py line 156):
URL, JSON payload, the `timeout=` keyword, and the `headers=` keyword when one
is passed (`none` records that the call passes no headers argument). -/
structure SentRequest where
  url : String
  payload : RequestPayload
  timeout : Nat
  headers : Option (List (String × String))
deriving DecidableEq, Repr

/-- Abstraction of `response.json()` followed by
`data['choices'][0]['message']['content']`: either the body yields a content
string, or decoding / key access raises with the given exception text. -/
inductive BodyParse where
  | content (s : String)
  | malformed (excMsg : String)
deriving DecidableEq, Repr

/-- What the external world does at the `requests.post` call: an HTTP response
with a status code, a body and a `response.text`, or one of the exceptions the
code distinguishes (`ConnectionError`, `Timeout`, anything else). -/
inductive PostOutcome where
  | response (status : Nat) (body : BodyParse) (text : String)
  | connectionError (msg : String)
  | timeout (msg : String)
  | otherError (msg : String)
deriving DecidableEq, Repr

/-- Environment of one `send_prompt` call: the result of `get_loaded_models()`
(consulted only when no model is supplied) and the outcome of the HTTP post. -/
structure SendEnv where
  loadedModels : List ModelRecord
  post : PostOutcome
deriving Repr

/-- The error string returned when no model is supplied and none is loaded
(cli.py line 139). -/
def noModelsError : String :=
  "Error: No models loaded. Use 'lms load <model>' to load a model."

/-- The error string for `requests.exceptions.ConnectionError` (cli.py line 169). -/
def connectionErrorMsg : String :=
  "Error: Could not connect to LM Studio server. Make sure it's running with 'lms server start'"

/-- The error string for `requests.exceptions.Timeout` (cli.py line 172). -/
def timeoutErrorMsg : String := "Error: Request timed out"

/-- Model resolution at the head of `send_prompt` (cli.py lines 136–141):
a falsy `model` argument is replaced by
`models[0].get("identifier", models[0].get("name", ""))`, failing when the
loaded list is empty. -/
def resolveModel (model : Option String) (loadedModels : List ModelRecord) :
    Except String String :=
  if optTruthy model then .ok (model.getD "")
  else
    match loadedModels with
    | [] => .error noModelsError
    | m :: _ => .ok (m.identifier.getD (m.name.getD ""))

/-- The request `send_prompt` issues (cli.py lines 132 and 143–156): the chat
completions URL for the port, the payload with a single user message,
`temperature` 0.7, `max_tokens` -1 and `stream` false, the `timeout=60`
keyword, and no headers keyword. -/
def buildRequest (prompt mdl : String) (port : Nat) : SentRequest :=
  { url := "http://localhost:" ++ toString port ++ "/v1/chat/completions"
    payload :=
      { model := mdl
        messages := [{ role := "user", content := prompt }]
        temperature := 7 / 10
        max_tokens := -1
        stream := false }
    timeout := 60
    headers := none }

/-- The `try` block of `send_prompt` (cli.py lines 155–175): the content of a
well-formed 200 response, or the error string corresponding to the failure —
the exception text of a malformed 200 body, the status-and-text message of a
non-200 response, and the fixed connection-error / timeout / generic
exception messages. -/
def postResultString (post : PostOutcome) : String :=
  match post with
  | .response st body text =>
    if st = 200 then
      match body with
      | .content s => s
      | .malformed excMsg => "Error: " ++ excMsg
    else
      "Error: Server returned status " ++ toString st ++ ": " ++ text
  | .connectionError _ => connectionErrorMsg
  | .timeout _ => timeoutErrorMsg
  | .otherError msg => "Error: " ++ msg

/-- `send_prompt` (cli.py lines 130–175), returning the result string together
with the HTTP request issued (`none` when the function returns before
posting). -/
def send_prompt (prompt : String) (model : Option String) (port : Nat)
    (env : SendEnv) : String × Option SentRequest :=
  match resolveModel model env.loadedModels with
  | .error e => (e, none)
  | .ok mdl => (postResultString env.post, some (buildRequest prompt mdl port))

/-- The server-status record (`running` flag and optional port) as `main`
consumes it. -/
structure ServerStatus where
  running : Bool
  port : Option Nat
deriving DecidableEq, Repr

/-- Abstraction of `requests.get` at the health-check fallback: a status code,
or an exception. -/
inductive HttpGetOutcome where
  | ok (status : Nat)
  | raised (msg : String)
deriving DecidableEq, Repr

/-- Environment of one `get_server_status` call: the `lms server status --json`
outcome, the `json.loads` result on its stdout (`none` abstracts a raising
`json.loads`), and the HTTP health-check outcome. -/
structure StatusEnv where
  statusRun : RunOutcome
  statusParsed : Option ServerStatus
  healthGet : HttpGetOutcome
deriving Repr

/-- `get_server_status` (cli.py lines 54–77): parse the structured status
query on exit 0 with non-empty stdout; otherwise fall back to
`GET /v1/models` with a 2-second timeout, HTTP 200 meaning running on port
1234; every failure yields `{running: false}`. -/
def get_server_status (env : StatusEnv) : ServerStatus × List SubprocCall :=
  match env.statusRun with
  | .raised _ => (⟨false, none⟩, [serverStatusCall])
  | .completed rc stdout _ =>
    if rc = 0 && stdout != "" then
      match env.statusParsed with
      | some st => (st, [serverStatusCall])
      | none => (⟨false, none⟩, [serverStatusCall])
    else
      match env.healthGet with
      | .ok st =>
        if st = 200 then (⟨true, some 1234⟩, [serverStatusCall])
        else (⟨false, none⟩, [serverStatusCall])
      | .raised _ => (⟨false, none⟩, [serverStatusCall])

/-- The `--pipe-mode` choices of `main` (cli.py lines 195–198). -/
inductive PipeMode where
  | replace
  | append
  | prepend
deriving DecidableEq, Repr

/-- The prompt-composition logic of `main` (cli.py lines 242–255):
`promptArg` is `args.prompt` (absent or a string) and `pipedContent` is the
stripped stdin content (absent when stdin is a tty). Both are tested with
Python truthiness, so empty strings count as absent. -/
def computeFinalPrompt (promptArg pipedContent : Option String)
    (mode : PipeMode) : Option String :=
  if optTruthy pipedContent then
    let piped := pipedContent.getD ""
    if mode = .replace && !(optTruthy promptArg) then some piped
    else if mode = .append && optTruthy promptArg then
      some (promptArg.getD "" ++ "\n\n" ++ piped)
    else if mode = .prepend && optTruthy promptArg then
      some (piped ++ "\n\n" ++ promptArg.getD "")
    else if optTruthy promptArg then
      some (promptArg.getD "" ++ "\n\n" ++ piped)
    else some piped
  else promptArg

/-- Modelled from the spec: `src/lmsp/cli.py` is absent from the sources (only
its import declaration in `src/lmsp/__init__.py` and its tests are present),
so `sanitize_terminal_output` is taken from §4.1 of the spec — it strips
ANSI/control escape characters from model-generated text before terminal
output while preserving every printable Unicode code point unchanged. A
character is stripped when it is a C0 control character other than newline or
tab, or DEL. -/
def strippedCtrl (c : Char) : Bool :=
  (c.val < 0x20 && c ≠ '\n' && c ≠ '\t') || c.val = 0x7f

/-- Modelled from the spec: the sanitizer itself — remove every control
character (per `strippedCtrl`), keep all other code points in order. -/
def sanitize_terminal_output (s : String) : String :=
  ⟨s.data.filter (fun c => !(strippedCtrl c))⟩

/-- A listing environment in which `lms ps --json` succeeds and reports one
loaded model (the shape of the repository's own test data). -/
def c4env : EnsureEnv :=
  { gle :=
      { psJson := .completed 0
          "[\x7b\"identifier\": \"llama-3.2-1b-instruct\"\x7d]" ""
        psJsonParsed := some [{ identifier := some "llama-3.2-1b-instruct" }]
        psPlain := .raised "unused" }
    lmsLoad := .raised "unused"
    lmsLs := .raised "unused" }

/-- An environment in which no model is loaded and `lms load` fails with a
generic error. -/
def c5env : EnsureEnv :=
  { gle := { psJson := .completed 0 "[]" "", psJsonParsed := some [], psPlain := .raised "unused" }
    lmsLoad := .completed 1 "" "load failed"
    lmsLs := .raised "unused" }

/-- An environment in which no model is loaded and `lms load` fails with an
unknown-model error, while `lms ls` lists two available models. -/
def c6env : EnsureEnv :=
  { gle := { psJson := .completed 0 "[]" "", psJsonParsed := some [], psPlain := .raised "unused" }
    lmsLoad := .completed 1 "" "Model \"not-a-real-model\" not found"
    lmsLs := .completed 0 "model-a\nmodel-b\n" "" }

/-- A listing environment in which `lms ps --json` exits 0 but prints invalid
JSON (so `json.loads` raises), while the plain `lms ps` output would parse. -/
def c7env : GetLoadedEnv :=
  { psJson := .completed 0 "not valid json" ""
    psJsonParsed := none
    psPlain := .completed 0 "Model ID\nllama-3.2-1b-instruct\n" "" }

/-- A listing environment in which `lms ps --json` exits non-zero, so the
plain-text fallback runs (the shape of the repository's own fallback test). -/
def c7fenv : GetLoadedEnv :=
  { psJson := .completed 1 "" ""
    psJsonParsed := none
    psPlain := .completed 0 "Model ID\nllama-3.2-1b-instruct\n" "" }

theorem isPrefixChars_append (p a b : List Char) (h : isPrefixChars p a = true) :
    isPrefixChars p (a ++ b) = true := by
  induction p generalizing a with
  | nil => rfl
  | cons x xs ih =>
    cases a with
    | nil => simp [isPrefixChars] at h
    | cons c cs =>
      simp only [isPrefixChars, Bool.and_eq_true] at h ⊢
      exact ⟨h.1, ih cs h.2⟩

theorem strHasPrefix_append (p a b : String) (h : strHasPrefix p a = true) :
    strHasPrefix p (a ++ b) = true := by
  unfold strHasPrefix at h ⊢
  rw [String.data_append]
  exact isPrefixChars_append _ _ _ h

theorem list_available_models_trace (run : RunOutcome) :
    (list_available_models run).2 = [lmsLsCall] := by
  cases run with
  | raised m => rfl
  | completed rc out err =>
    unfold list_available_models
    dsimp only
    split <;> rfl

theorem get_loaded_models_trace (env : GetLoadedEnv) :
    (get_loaded_models env).2 = [psJsonCall] ∨
    (get_loaded_models env).2 = [psJsonCall, psPlainCall] := by
  unfold get_loaded_models
  cases env.psJson with
  | raised m => exact Or.inl rfl
  | completed rc out err =>
    dsimp only
    split
    · cases env.psJsonParsed <;> exact Or.inl rfl
    · cases env.psPlain with
      | raised m => exact Or.inr rfl
      | completed rc2 out2 err2 =>
        dsimp only
        split <;> exact Or.inr rfl

theorem resolveModel_error (model : Option String) (l : List ModelRecord)
    (e : String) (h : resolveModel model l = .error e) : e = noModelsError := by
  unfold resolveModel at h
  split at h
  · cases h
  · cases l with
    | nil => cases h; rfl
    | cons r rest => cases h

theorem postResultString_failure (post : PostOutcome)
    (hpost : ∀ s t, post ≠ .response 200 (.content s) t) :
    strHasPrefix "Error:" (postResultString post) = true := by
  unfold postResultString
  cases post with
  | response st body text =>
    dsimp only
    by_cases hst : st = 200
    · subst hst
      cases body with
      | content s => exact absurd rfl (hpost s text)
      | malformed excMsg =>
        simp only [if_pos rfl]
        exact strHasPrefix_append _ "Error: " excMsg (by decide)
    · simp only [if_neg hst]
      apply strHasPrefix_append
      apply strHasPrefix_append
      exact strHasPrefix_append _ "Error: Server returned status " _ (by decide)
  | connectionError m => dsimp only; decide
  | timeout m => dsimp only; decide
  | otherError m =>
    dsimp only
    exact strHasPrefix_append _ "Error: " m (by decide)

/-- C1: For every prompt, model and port, `send_prompt` is a total function
into result strings, and whenever the exchange does not succeed — no model
supplied and none loaded, or the HTTP post ends in a connection error, a
timeout, a non-200 status, a malformed 200 body, or any other exception — the
returned string carries the recognizable "Error:" prefix instead of an
exception propagating. -/
theorem send_prompt_failure_gives_error_string
    (prompt : String) (model : Option String) (port : Nat) (env : SendEnv)
    (hfail : (optTruthy model = false ∧ env.loadedModels = []) ∨
      (∀ s t, env.post ≠ .response 200 (.content s) t)) :
    strHasPrefix "Error:" (send_prompt prompt model port env).1 = true := by
  unfold send_prompt
  cases hres : resolveModel model env.loadedModels with
  | error e =>
    rw [resolveModel_error model env.loadedModels e hres]
    dsimp only
    decide
  | ok mdl =>
    dsimp only
    apply postResultString_failure
    rcases hfail with ⟨hm, hl⟩ | h2
    · unfold resolveModel at hres
      rw [hm, hl] at hres
      simp at hres
    · exact h2

/-- C1 witness: with no model supplied and no model loaded, the concrete call
returns an "Error:"-prefixed string. -/
theorem send_prompt_failure_gives_error_string_witness :
    strHasPrefix "Error:"
      (send_prompt "Hello" none 1234 ⟨[], .connectionError "refused"⟩).1 = true :=
  send_prompt_failure_gives_error_string "Hello" none 1234
    ⟨[], .connectionError "refused"⟩ (Or.inl ⟨rfl, rfl⟩)

/-- C2 counterexample: a concrete `send_prompt` call issues its request with
the payload's `stream` field set to false, refuting the claim that the stream
field is always set to true on the wire. -/
theorem send_prompt_stream_false_cex :
    ((send_prompt "Hello" (some "custom-model") 1234
        ⟨[], .connectionError "refused"⟩).2).map (fun r => r.payload.stream) =
      some false := rfl

/-- C2 as amended: every request sent by `send_prompt` carries exactly the
payload `\x7bmodel, messages: [\x7brole: "user", content: prompt\x7d],
temperature: 0.7, max_tokens: -1 (the unbounded sentinel), stream: false\x7d`
— the stream field is always false on the wire (`send_prompt` has no
streaming mode at all). -/
theorem send_prompt_payload_shape
    (prompt : String) (model : Option String) (port : Nat) (env : SendEnv)
    (req : SentRequest) (h : (send_prompt prompt model port env).2 = some req) :
    req.payload.messages = [⟨"user", prompt⟩] ∧
    req.payload.temperature = 7 / 10 ∧
    req.payload.max_tokens = -1 ∧
    req.payload.stream = false ∧
    req.url = "http://localhost:" ++ toString port ++ "/v1/chat/completions" := by
  unfold send_prompt at h
  cases hres : resolveModel model env.loadedModels with
  | error e =>
    rw [hres] at h
    cases h
  | ok mdl =>
    rw [hres] at h
    dsimp only at h
    injection h with h
    subst h
    exact ⟨rfl, rfl, rfl, rfl, rfl⟩

/-- C2 witness: the amended payload shape at a concrete call. -/
theorem send_prompt_payload_shape_witness :
    (buildRequest "Hello" "custom-model" 1234).payload.messages =
      [⟨"user", "Hello"⟩] ∧
    (buildRequest "Hello" "custom-model" 1234).payload.temperature = 7 / 10 ∧
    (buildRequest "Hello" "custom-model" 1234).payload.max_tokens = -1 ∧
    (buildRequest "Hello" "custom-model" 1234).payload.stream = false ∧
    (buildRequest "Hello" "custom-model" 1234).url =
      "http://localhost:" ++ toString 1234 ++ "/v1/chat/completions" :=
  send_prompt_payload_shape "Hello" (some "custom-model") 1234
    ⟨[], .connectionError "refused"⟩ _ rfl

/-- C3: with no model argument, `send_prompt` against an empty loaded-model
list returns the no-models-loaded error string and issues no HTTP request;
against a non-empty list whose first record has an identifier, the payload's
model is that identifier. -/
theorem send_prompt_default_model_resolution
    (prompt : String) (port : Nat) (env : SendEnv) :
    (env.loadedModels = [] →
      send_prompt prompt none port env = (noModelsError, none)) ∧
    (∀ r rest id, env.loadedModels = r :: rest → r.identifier = some id →
      ((send_prompt prompt none port env).2).map (fun q => q.payload.model) =
        some id) := by
  constructor
  · intro h
    unfold send_prompt resolveModel
    rw [h]
    rfl
  · intro r rest id hl hid
    unfold send_prompt resolveModel
    rw [hl]
    simp [optTruthy, hid, buildRequest]

/-- C3 witness: both branches at concrete inputs. -/
theorem send_prompt_default_model_resolution_witness :
    (send_prompt "Hello" none 1234 ⟨[], .connectionError "refused"⟩ =
      (noModelsError, none)) ∧
    (((send_prompt "Hello" none 1234
        ⟨[{ identifier := some "llama-3.2-1b-instruct" }],
          .connectionError "refused"⟩).2).map (fun q => q.payload.model) =
      some "llama-3.2-1b-instruct") :=
  ⟨(send_prompt_default_model_resolution "Hello" 1234
      ⟨[], .connectionError "refused"⟩).1 rfl,
   (send_prompt_default_model_resolution "Hello" 1234
      ⟨[{ identifier := some "llama-3.2-1b-instruct" }],
        .connectionError "refused"⟩).2
      { identifier := some "llama-3.2-1b-instruct" } [] "llama-3.2-1b-instruct"
      rfl rfl⟩

/-- C8 counterexample: a concrete `send_prompt` call passes no headers
keyword at all to the HTTP library, refuting the claim that every
prompt-submission request carries an explicit
`Content-Type: application/json; charset=utf-8` header. -/
theorem send_prompt_no_content_type_cex :
    ((send_prompt "Hello" (some "custom-model") 1234
        ⟨[], .connectionError "refused"⟩).2).map (fun r => r.headers) =
      some none := rfl

/-- C8 as amended: every request sent by `send_prompt` passes no explicit
headers (relying on the HTTP library's default content type, with no charset
parameter) and a 60-second timeout. -/
theorem send_prompt_headers_absent
    (prompt : String) (model : Option String) (port : Nat) (env : SendEnv)
    (req : SentRequest) (h : (send_prompt prompt model port env).2 = some req) :
    req.headers = none ∧ req.timeout = 60 := by
  unfold send_prompt at h
  cases hres : resolveModel model env.loadedModels with
  | error e =>
    rw [hres] at h
    cases h
  | ok mdl =>
    rw [hres] at h
    dsimp only at h
    injection h with h
    subst h
    exact ⟨rfl, rfl⟩

/-- C8 witness: the amended header behaviour at a concrete call. -/
theorem send_prompt_headers_absent_witness :
    (buildRequest "Hello" "custom-model" 1234).headers = none ∧
    (buildRequest "Hello" "custom-model" 1234).timeout = 60 :=
  send_prompt_headers_absent "Hello" (some "custom-model") 1234
    ⟨[], .connectionError "refused"⟩ _ rfl

/-- C4: when `get_loaded_models` reports a record whose identifier or name
equals the requested name, `ensure_model_loaded` returns true and performs no
subprocess invocation beyond the listing query: its trace is exactly the
listing trace, consists only of the two `lms ps` queries, and in particular
never contains the load command. -/
theorem ensure_model_loaded_idempotent
    (name : String) (env : EnsureEnv)
    (h : ∃ r ∈ (get_loaded_models env.gle).1,
        r.identifier = some name ∨ r.name = some name) :
    ensure_model_loaded name env = (true, (get_loaded_models env.gle).2) ∧
    lmsLoadCall name ∉ (ensure_model_loaded name env).2 ∧
    ((ensure_model_loaded name env).2).all
      (fun c => c = psJsonCall || c = psPlainCall) = true := by
  have hany : ((get_loaded_models env.gle).1).any
      (fun r => r.identifier = some name || r.name = some name) = true := by
    rw [List.any_eq_true]
    obtain ⟨r, hr, hor⟩ := h
    refine ⟨r, hr, ?_⟩
    rcases hor with h1 | h1 <;> simp [h1]
  have heq : ensure_model_loaded name env = (true, (get_loaded_models env.gle).2) := by
    simp [ensure_model_loaded, hany]
  refine ⟨heq, ?_, ?_⟩
  · rw [heq]
    rcases get_loaded_models_trace env.gle with ht | ht <;> rw [ht] <;>
      simp [lmsLoadCall, psJsonCall, psPlainCall]
  · rw [heq]
    rcases get_loaded_models_trace env.gle with ht | ht <;> rw [ht] <;> decide

/-- C4 witness: with the test repository's loaded model, the concrete call is
idempotent. -/
theorem ensure_model_loaded_idempotent_witness :
    (ensure_model_loaded "llama-3.2-1b-instruct" c4env =
      (true, (get_loaded_models c4env.gle).2)) ∧
    lmsLoadCall "llama-3.2-1b-instruct" ∉
      (ensure_model_loaded "llama-3.2-1b-instruct" c4env).2 ∧
    ((ensure_model_loaded "llama-3.2-1b-instruct" c4env).2).all
      (fun c => c = psJsonCall || c = psPlainCall) = true :=
  ensure_model_loaded_idempotent "llama-3.2-1b-instruct" c4env (by decide)

theorem get_server_status_trace (env : StatusEnv) :
    (get_server_status env).2 = [serverStatusCall] := by
  unfold get_server_status
  cases env.statusRun with
  | raised m => rfl
  | completed rc out err =>
    dsimp only
    split
    · cases env.statusParsed <;> rfl
    · cases env.healthGet with
      | ok st =>
        dsimp only
        split <;> rfl
      | raised m => rfl

theorem ensure_model_loaded_trace (name : String) (env : EnsureEnv) :
    (ensure_model_loaded name env).2 = (get_loaded_models env.gle).2 ∨
    (ensure_model_loaded name env).2 =
      (get_loaded_models env.gle).2 ++ [lmsLoadCall name] ∨
    (ensure_model_loaded name env).2 =
      (get_loaded_models env.gle).2 ++ [lmsLoadCall name] ++ [lmsLsCall] := by
  unfold ensure_model_loaded
  dsimp only
  split
  · exact Or.inl rfl
  · cases env.lmsLoad with
    | raised m => exact Or.inr (Or.inl rfl)
    | completed rc out err =>
      dsimp only
      split
      · exact Or.inr (Or.inl rfl)
      · split
        · rw [list_available_models_trace]
          exact Or.inr (Or.inr rfl)
        · exact Or.inr (Or.inl rfl)

/-- C5 counterexample: the `lms load` invocation is performed with no
`timeout=` keyword at all, refuting the claim that every process-manager
invocation is bounded by an operation-specific timeout (2 s / 30 s / 120 s). -/
theorem subprocess_no_timeout_cex :
    lmsLoadCall "mistral" ∈ (ensure_model_loaded "mistral" c5env).2 ∧
    (lmsLoadCall "mistral").timeout = none := by decide

/-- C5 as amended: every process-manager subprocess invocation issued by
`ensure_model_loaded` (the `lms ps --json`, `lms ps`, `lms load` and `lms ls`
calls) and by `get_server_status` is an argv array spawned without shell
interpretation, but carries no timeout — the invocations are unbounded. -/
theorem subprocess_calls_shell_free_unbounded
    (name : String) (env : EnsureEnv) (senv : StatusEnv) :
    ((ensure_model_loaded name env).2).all
      (fun c => !c.shell && c.timeout = none) = true ∧
    ((get_server_status senv).2).all
      (fun c => !c.shell && c.timeout = none) = true := by
  constructor
  · rcases ensure_model_loaded_trace name env with ht | ht | ht <;>
      rcases get_loaded_models_trace env.gle with hg | hg <;>
      rw [ht, hg] <;> rfl
  · rw [get_server_status_trace]
    rfl

/-- C5 witness: the amended property at concrete inputs. -/
theorem subprocess_calls_shell_free_unbounded_witness :
    ((ensure_model_loaded "mistral" c5env).2).all
      (fun c => !c.shell && c.timeout = none) = true ∧
    ((get_server_status ⟨.raised "spawn failed", none, .raised "refused"⟩).2).all
      (fun c => !c.shell && c.timeout = none) = true :=
  subprocess_calls_shell_free_unbounded "mistral" c5env
    ⟨.raised "spawn failed", none, .raised "refused"⟩

/-- C6: when the model is not already loaded and the `lms load` command fails
— by raising or by exiting non-zero — `ensure_model_loaded` returns false
rather than raising, and when a failing load's lower-cased stderr contains
"not found" or "does not exist", the `lms ls` listing query is additionally
invoked. -/
theorem ensure_model_loaded_load_failure
    (name : String) (env : EnsureEnv) (failMsg : String) (rc : Int)
    (out err : String)
    (hnot : ((get_loaded_models env.gle).1).any
        (fun r => r.identifier = some name || r.name = some name) = false)
    (hfail : env.lmsLoad = .raised failMsg ∨
      (env.lmsLoad = .completed rc out err ∧ rc ≠ 0)) :
    (ensure_model_loaded name env).1 = false ∧
    ((env.lmsLoad = .completed rc out err ∧
      (strContains (pyLower err) "not found" ||
        strContains (pyLower err) "does not exist") = true) →
      lmsLsCall ∈ (ensure_model_loaded name env).2) := by
  unfold ensure_model_loaded
  dsimp only
  rw [hnot]
  simp only [Bool.false_eq_true, if_false]
  rcases hfail with hr | ⟨hc, hrc⟩
  · rw [hr]
    refine ⟨rfl, ?_⟩
    rintro ⟨hc, -⟩
    exact absurd hc (by simp)
  · rw [hc]
    dsimp only
    rw [if_neg (by simpa using hrc)]
    constructor
    · split <;> rfl
    · rintro ⟨-, hmark⟩
      rw [if_pos hmark, list_available_models_trace]
      simp

/-- C6 witness: a failing load for "not-a-real-model" whose stderr marks the
model unknown returns false and triggers the `lms ls` query. -/
theorem ensure_model_loaded_load_failure_witness :
    (ensure_model_loaded "not-a-real-model" c6env).1 = false ∧
    ((c6env.lmsLoad =
        .completed 1 "" "Model \"not-a-real-model\" not found" ∧
      (strContains (pyLower "Model \"not-a-real-model\" not found") "not found" ||
        strContains (pyLower "Model \"not-a-real-model\" not found")
          "does not exist") = true) →
      lmsLsCall ∈ (ensure_model_loaded "not-a-real-model" c6env).2) :=
  ensure_model_loaded_load_failure "not-a-real-model" c6env "unused" 1 ""
    "Model \"not-a-real-model\" not found" (by decide) (Or.inr ⟨rfl, by decide⟩)

/-- C7 counterexample: with the structured query exiting 0 but printing
invalid JSON, `get_loaded_models` returns the empty list without ever
invoking the plain-text fallback query, refuting the claim that invalid
structured output triggers the fallback. -/
theorem get_loaded_models_no_fallback_cex :
    (get_loaded_models c7env).1 = [] ∧
    psPlainCall ∉ (get_loaded_models c7env).2 := by decide

/-- C7 as amended: the plain-text fallback runs exactly when the structured
query exits non-zero or prints nothing (invalid JSON under exit 0 instead
raises and yields the empty list); on fallback the result is the heuristic
parse of the plain output — skip the first (header) line, take the first
whitespace-delimited token of the first remaining non-blank line as the sole
record's identifier — when the fallback exits 0, and the empty list when both
paths fail. -/
theorem get_loaded_models_fallback
    (env : GetLoadedEnv) (rc rc2 : Int) (stdout err out2 err2 : String)
    (h : env.psJson = .completed rc stdout err)
    (hfail : rc ≠ 0 ∨ stdout = "")
    (h2 : env.psPlain = .completed rc2 out2 err2) :
    (get_loaded_models env).2 = [psJsonCall, psPlainCall] ∧
    (get_loaded_models env).1 = (if rc2 = 0 then parsePlainPs out2 else []) := by
  unfold get_loaded_models
  rw [h, h2]
  dsimp only
  have hcond : (decide (rc = 0) && stdout != "") = false := by
    rcases hfail with h1 | h1 <;> simp [h1]
  rw [hcond]
  simp only [Bool.false_eq_true, if_false]
  constructor
  · split <;> rfl
  · split <;> rfl

/-- C7 witness: the repository's own fallback scenario — structured query
exits 1, plain output is a header line plus one model row. -/
theorem get_loaded_models_fallback_witness :
    (get_loaded_models c7fenv).2 = [psJsonCall, psPlainCall] ∧
    (get_loaded_models c7fenv).1 =
      (if (0 : Int) = 0
        then parsePlainPs "Model ID\nllama-3.2-1b-instruct\n" else []) :=
  get_loaded_models_fallback c7fenv 1 0 "" "" "Model ID\nllama-3.2-1b-instruct\n" ""
    rfl (Or.inl (by decide)) rfl

/-- C9: `sanitize_terminal_output` is idempotent, and on any string made only
of non-stripped (printable) code points — multi-byte sequences included — it
is the identity, removing nothing. -/
theorem sanitize_terminal_output_idempotent (s : String) :
    sanitize_terminal_output (sanitize_terminal_output s) =
      sanitize_terminal_output s ∧
    ((∀ c ∈ s.data, strippedCtrl c = false) → sanitize_terminal_output s = s) := by
  constructor
  · apply String.ext
    show (s.data.filter _).filter _ = s.data.filter _
    exact List.filter_eq_self.mpr (fun a ha => (List.mem_filter.mp ha).2)
  · intro h
    apply String.ext
    show s.data.filter _ = s.data
    apply List.filter_eq_self.mpr
    intro a ha
    simp [h a ha]

/-- C9 witness: the multi-byte scripts of the spec pass through unchanged and
idempotently. -/
theorem sanitize_terminal_output_idempotent_witness :
    (sanitize_terminal_output (sanitize_terminal_output "日本語") =
      sanitize_terminal_output "日本語") ∧
    sanitize_terminal_output "日本語" = "日本語" ∧
    sanitize_terminal_output "æøå" = "æøå" :=
  ⟨(sanitize_terminal_output_idempotent "日本語").1,
   (sanitize_terminal_output_idempotent "日本語").2 (by decide),
   (sanitize_terminal_output_idempotent "æøå").2 (by decide)⟩

/-- C10: in `main`'s prompt composition, with a truthy prompt argument, truthy
piped content and the default replace pipe mode, the piped content neither
replaces the prompt nor is discarded: the final prompt is the prompt argument,
a blank line, then the piped content. -/
theorem pipe_replace_with_prompt_appends
    (p piped : String) (hp : p ≠ "") (hpiped : piped ≠ "") :
    computeFinalPrompt (some p) (some piped) .replace =
      some (p ++ "\n\n" ++ piped) := by
  unfold computeFinalPrompt
  have h1 : optTruthy (some piped) = true := by simp [optTruthy, hpiped]
  have h2 : optTruthy (some p) = true := by simp [optTruthy, hp]
  rw [h1]
  simp only [if_pos rfl, h2]
  rfl

/-- C10 witness: the repository test's prompt and piped document compose by
appending. -/
theorem pipe_replace_with_prompt_appends_witness :
    computeFinalPrompt (some "Summarize this:") (some "Document content here")
        .replace =
      some ("Summarize this:" ++ "\n\n" ++ "Document content here") :=
  pipe_replace_with_prompt_appends "Summarize this:" "Document content here"
    (by decide) (by decide)

end Lmsp
